import Mathlib

/-!
Shallow embedding of the two upload handlers of the
learn-file-storage-s3-golang-starter repository
(`handlerUploadThumbnail`, `handlerUploadVideo`) together with their
sub-routines `getVideoAspectRatio` and `processVideoForFastStart`.

External collaborators (uuid parsing, JWT validation, the metadata store,
the multipart parser, the filesystem, ffprobe/ffmpeg, S3) are modelled as
outcomes supplied by an environment record; the handler bodies themselves
are translated statement by statement from the Go source.
-/

deriving instance DecidableEq for Except

namespace S3Starter

/-- A byte, as produced by `crypto/rand.Read`. -/
abbrev Byte := Nat

/-- An error value returned by an external call (`error` in Go).
`msg` is used for errors built with `errors.New`. -/
inductive GoErr where
  | exitErr
  | unmarshalErr
  | msg (s : String)
deriving Repr, DecidableEq

/-- The URL-safe base64 alphabet used by Go's `base64.URLEncoding` and
`base64.RawURLEncoding` (RFC 4648 §5). -/
def base64UrlAlphabet : List Char :=
  "ABCDEFGHIJKLMNOPQRSTUVWXYZabcdefghijklmnopqrstuvwxyz0123456789-_".toList

/-- The sextet-to-character table of the URL-safe alphabet. -/
def b64Char (n : Nat) : Char := base64UrlAlphabet.getD n 'A'

/-- Base64 encoding of a byte list, three bytes to four characters,
without padding (the character part shared by `EncodeToString` of
`base64.URLEncoding` and `base64.RawURLEncoding`). -/
def encodeGroups : List Byte → List Char
  | [] => []
  | [b1] => [b64Char (b1 / 4), b64Char (b1 % 4 * 16)]
  | [b1, b2] => [b64Char (b1 / 4), b64Char (b1 % 4 * 16 + b2 / 16), b64Char (b2 % 16 * 4)]
  | b1 :: b2 :: b3 :: rest =>
      b64Char (b1 / 4) :: b64Char (b1 % 4 * 16 + b2 / 16) ::
      b64Char (b2 % 16 * 4 + b3 / 64) :: b64Char (b3 % 64) :: encodeGroups rest

/-- `base64.RawURLEncoding.EncodeToString`: URL-safe alphabet, no padding. -/
def base64RawURLEncode (bs : List Byte) : String :=
  String.mk (encodeGroups bs)

/-- `base64.URLEncoding.EncodeToString`: URL-safe alphabet with `=` padding. -/
def base64URLEncode (bs : List Byte) : String :=
  String.mk (encodeGroups bs) ++
    (match bs.length % 3 with
     | 1 => "=="
     | 2 => "="
     | _ => "")

/-- One entry of the `streams` array of the ffprobe JSON output, as
unmarshalled by `getVideoAspectRatio`; a field absent from the JSON is
unmarshalled to the zero value (`""` for the aspect-ratio string). -/
structure FfprobeStream where
  width : Int
  height : Int
  display_aspect_ratio : String
deriving Repr, DecidableEq

/-- Joint outcome of `command.Run()` (ffprobe) and `json.Unmarshal` on its
stdout: the run can fail, the unmarshal can fail, or a stream list is
obtained. -/
inductive ProbeRun where
  | runError
  | unmarshalError
  | parsed (streams : List FfprobeStream)
deriving Repr, DecidableEq

/-- `getVideoAspectRatio`: propagate a run error or an unmarshal error,
fail with `errors.New("No streams found")` on an empty stream list, and
otherwise return `Streams[0].DisplayAspectRatio`. -/
def getVideoAspectRatio : ProbeRun → Except GoErr String
  | ProbeRun.runError => Except.error GoErr.exitErr
  | ProbeRun.unmarshalError => Except.error GoErr.unmarshalErr
  | ProbeRun.parsed [] => Except.error (GoErr.msg "No streams found")
  | ProbeRun.parsed (s :: _) => Except.ok s.display_aspect_ratio

/-- The aspect-ratio switch of `handlerUploadVideo`:
`prefix := "other"; switch { case "16:9": "landscape"; case "9:16": "portrait" }`. -/
def classifyAspect (aspectRation : String) : String :=
  if aspectRation = "16:9" then "landscape"
  else if aspectRation = "9:16" then "portrait"
  else "other"

/-- An external command invocation: program and argument list. -/
structure Cmd where
  prog : String
  args : List String
deriving Repr, DecidableEq

/-- The fixed ffmpeg argument template of `processVideoForFastStart`. -/
def ffmpegFastStartCmd (filePath tmpName : String) : Cmd :=
  ⟨"ffmpeg", ["-i", filePath, "-c", "copy", "-movflags", "faststart", "-f", "mp4", tmpName]⟩

/-- `processVideoForFastStart`: build the sibling output path
`filePath + ".processing"`, run ffmpeg on it (`runExit` is the external
exit outcome of a given invocation), propagate a non-zero exit as an
error and return the new path on success.  The invoked command is
returned alongside so that theorems can speak about it. -/
def processVideoForFastStart (filePath : String) (runExit : Cmd → Except GoErr Unit) :
    Cmd × Except GoErr String :=
  let tmpName := filePath ++ ".processing"
  let c := ffmpegFastStartCmd filePath tmpName
  match runExit c with
  | Except.error e => (c, Except.error e)
  | Except.ok _ => (c, Except.ok tmpName)

/-- The process-wide configuration (`apiConfig`) fields used by the two
handlers. -/
structure ApiConfig where
  port : String
  assetsRoot : String
  jwtSecret : String
  s3Bucket : String
  s3CfDistribution : String
deriving Repr, DecidableEq

/-- A video record of the metadata store (`database.Video`): identifier,
owning user, optional thumbnail and video URLs. -/
structure Video where
  id : String
  userID : String
  thumbnailURL : Option String
  videoURL : Option String
deriving Repr, DecidableEq

/-- The handler response: a structured error with HTTP status and message
(`respondWithError`), the empty JSON success body of the thumbnail
handler, or the JSON-encoded video record of the video handler. -/
inductive Response where
  | error (status : Nat) (m : String)
  | okEmpty
  | okVideo (v : Video)
deriving Repr, DecidableEq

/-- An observable side effect of a handler run. -/
inductive Effect where
  | assetsCreate (path : String)
  | assetsWrite (path : String) (data : List Byte)
  | createTemp
  | runFfprobe (path : String)
  | runFfmpeg (c : Cmd)
  | s3Put (bucket key : String)
  | dbUpdate (v : Video)
deriving Repr, DecidableEq

/-- The multipart form file returned by `r.FormFile`: the user-supplied
file name and the declared `Content-Type` header of the part. -/
structure FormFile where
  filename : String
  contentType : String
deriving Repr, DecidableEq

/-- `filepath.Join` on one separator-free component. -/
def filepathJoin (dir file : String) : String := dir ++ "/" ++ file

/-- `strings.Split` for the one-character separator the handler uses. -/
def stringsSplit (s : String) (sep : Char) : List String :=
  (s.data.splitOn sep).map String.mk

/-- Environment of one `handlerUploadThumbnail` request: the outcome of
every external call the handler makes, in source order. -/
structure ThumbEnv where
  /-- `uuid.Parse(r.PathValue("videoID"))` -/
  videoIDParse : Except GoErr String
  /-- `auth.GetBearerToken(r.Header)` -/
  bearerToken : Except GoErr String
  /-- `auth.ValidateJWT(token, cfg.jwtSecret)` -/
  jwtUser : Except GoErr String
  /-- `r.ParseMultipartForm(maxMemory)` — its error is discarded by the source -/
  parseFormResult : Except GoErr Unit
  /-- `r.FormFile("thumbnail")` -/
  formFile : Except GoErr FormFile
  /-- `io.ReadAll(file)` -/
  readAll : Except GoErr (List Byte)
  /-- `cfg.db.GetVideo(videoID)` -/
  getVideo : Except GoErr Video
  /-- `mime.ParseMediaType`, applied to the declared content type -/
  parseMediaType : String → Except GoErr String
  /-- error possibility of `rand.Read(randomBytes)` -/
  randRead : Except GoErr Unit
  /-- the fresh random bytes delivered by `crypto/rand` -/
  randStream : Nat → Byte
  /-- `os.Create(filePath)` -/
  osCreate : Except GoErr Unit
  /-- `io.Copy(filePoint, ...)` — its error is discarded by the source -/
  ioCopy : Except GoErr Nat
  /-- `cfg.db.UpdateVideo(VideoMeta)` -/
  updateVideo : Except GoErr Unit

/-- Result of one `handlerUploadThumbnail` run: the response written, the
storage side effects in order, the metadata record after the run (equal
to the fetched one unless an update call succeeded), and the generated
file name when a file was created under it. -/
structure ThumbOutcome where
  response : Response
  effects : List Effect
  finalRecord : Except GoErr Video
  storedName : Option String
deriving Repr, DecidableEq

/-- `handlerUploadThumbnail`, statement by statement from the source. -/
def handlerUploadThumbnail (cfg : ApiConfig) (env : ThumbEnv) : ThumbOutcome :=
  match env.videoIDParse with
  | Except.error _ => ⟨Response.error 400 "Invalid ID", [], env.getVideo, none⟩
  | Except.ok _videoID =>
  match env.bearerToken with
  | Except.error _ => ⟨Response.error 401 "Couldn\x27t find JWT", [], env.getVideo, none⟩
  | Except.ok _token =>
  match env.jwtUser with
  | Except.error _ => ⟨Response.error 401 "Couldn\x27t validate JWT", [], env.getVideo, none⟩
  | Except.ok userID =>
  -- r.ParseMultipartForm(maxMemory): the returned error is not checked
  match env.formFile with
  | Except.error _ => ⟨Response.error 400 "Unable to parse form file", [], env.getVideo, none⟩
  | Except.ok file =>
  -- ContentType := header.Header.Get("Content-Type")
  match env.readAll with
  | Except.error _ => ⟨Response.error 500 "Couldn\x27t read file", [], env.getVideo, none⟩
  | Except.ok data =>
  match env.getVideo with
  | Except.error e => ⟨Response.error 500 "Couldn\x27t get video", [], Except.error e, none⟩
  | Except.ok videoMeta =>
  if videoMeta.userID ≠ userID then
    ⟨Response.error 401 "Not your video", [], Except.ok videoMeta, none⟩
  else
  match env.parseMediaType file.contentType with
  | Except.error _ => ⟨Response.error 400 "Invalid media type", [], Except.ok videoMeta, none⟩
  | Except.ok mediaType =>
  if mediaType ≠ "image/jpeg" ∧ mediaType ≠ "image/png" then
    ⟨Response.error 400 "Invalid media type", [], Except.ok videoMeta, none⟩
  else
  let parts := stringsSplit mediaType '/'
  if parts.length ≠ 2 then
    ⟨Response.error 400 "Invalid media type", [], Except.ok videoMeta, none⟩
  else
  let extension := parts.getD 1 ""
  match env.randRead with
  | Except.error _ =>
      ⟨Response.error 500 "Couldn\x27t generate random bytes", [], Except.ok videoMeta, none⟩
  | Except.ok _ =>
  let randomBytes := (List.range 32).map env.randStream
  let name := base64RawURLEncode randomBytes
  let fileName := name ++ "." ++ extension
  let filePath := filepathJoin cfg.assetsRoot fileName
  match env.osCreate with
  | Except.error _ =>
      ⟨Response.error 500 "Couldn\x27t create file", [], Except.ok videoMeta, none⟩
  | Except.ok _ =>
  -- io.Copy(filePoint, strings.NewReader(string(data))): result discarded
  let effs := Effect.assetsCreate filePath ::
    (match env.ioCopy with
     | Except.ok _ => [Effect.assetsWrite filePath data]
     | Except.error _ => [])
  let thumbnailURL := "http://localhost:" ++ cfg.port ++ "/assets/" ++ fileName
  let videoMeta2 := { videoMeta with thumbnailURL := some thumbnailURL }
  match env.updateVideo with
  | Except.error _ =>
      ⟨Response.error 500 "Couldn\x27t update video",
       effs ++ [Effect.dbUpdate videoMeta2], Except.ok videoMeta, some fileName⟩
  | Except.ok _ =>
      ⟨Response.okEmpty, effs ++ [Effect.dbUpdate videoMeta2],
       Except.ok videoMeta2, some fileName⟩

/-- Intended semantics of `http.MaxBytesReader`: a reader delivering at
most `limit` bytes of the underlying body (here tracked by length). -/
def maxBytesReader (bodyLen limit : Nat) : Nat := min bodyLen limit

/-- Environment of one `handlerUploadVideo` request. -/
structure VideoEnv where
  /-- number of bytes of `r.Body` -/
  bodyLen : Nat
  /-- `uuid.Parse(r.PathValue("videoID"))` -/
  videoIDParse : Except GoErr String
  /-- `auth.GetBearerToken(r.Header)` -/
  bearerToken : Except GoErr String
  /-- `auth.ValidateJWT(token, cfg.jwtSecret)` -/
  jwtUser : Except GoErr String
  /-- `cfg.db.GetVideo(videoID)` -/
  getVideo : Except GoErr Video
  /-- `r.FormFile("video")` -/
  formFile : Except GoErr FormFile
  /-- `mime.ParseMediaType`, applied to the declared content type -/
  parseMediaType : String → Except GoErr String
  /-- `os.CreateTemp("", "video.mp4")`, returning the temp file name -/
  createTemp : Except GoErr String
  /-- `io.Copy(tmpFile, file)` -/
  ioCopy : Except GoErr Nat
  /-- ffprobe invocation and unmarshal outcome on the temp file -/
  probe : ProbeRun
  /-- exit outcome of the ffmpeg invocation of `processVideoForFastStart` -/
  ffmpegRun : Cmd → Except GoErr Unit
  /-- `os.OpenFile(processedFileName, os.O_RDONLY, 0666)` -/
  openProcessed : Except GoErr Unit
  /-- error possibility of `rand.Read(randomBites)` -/
  randRead : Except GoErr Unit
  /-- the fresh random bytes delivered by `crypto/rand` -/
  randStream : Nat → Byte
  /-- `cfg.s3Client.PutObject(...)` -/
  s3PutResult : Except GoErr Unit
  /-- `cfg.db.UpdateVideo(videoDb)` -/
  updateVideo : Except GoErr Unit

/-- Result of one `handlerUploadVideo` run.  `formSourceLen` is the number
of body bytes available to the multipart parser after the
`http.MaxBytesReader` line; `s3Key` is the object key when an object was
stored under it. -/
structure VideoOutcome where
  response : Response
  effects : List Effect
  finalRecord : Except GoErr Video
  s3Key : Option String
  formSourceLen : Nat
deriving Repr, DecidableEq

/-- `handlerUploadVideo`, statement by statement from the source.  The
source calls `http.MaxBytesReader(w, r.Body, 1<<30)` and discards the
wrapped reader it returns, so the stream later parsed is the original
request body. -/
def handlerUploadVideo (cfg : ApiConfig) (env : VideoEnv) : VideoOutcome :=
  let formSourceLen := env.bodyLen
  match env.videoIDParse with
  | Except.error _ => ⟨Response.error 400 "Invalid ID", [], env.getVideo, none, formSourceLen⟩
  | Except.ok _videoID =>
  match env.bearerToken with
  | Except.error _ =>
      ⟨Response.error 401 "Couldn\x27t find JWT", [], env.getVideo, none, formSourceLen⟩
  | Except.ok _token =>
  match env.jwtUser with
  | Except.error _ =>
      ⟨Response.error 401 "Couldn\x27t validate JWT", [], env.getVideo, none, formSourceLen⟩
  | Except.ok userID =>
  match env.getVideo with
  | Except.error e =>
      ⟨Response.error 500 "Couldn\x27t get video", [], Except.error e, none, formSourceLen⟩
  | Except.ok videoDb =>
  if videoDb.userID ≠ userID then
    ⟨Response.error 401 "User does not own video", [], Except.ok videoDb, none, formSourceLen⟩
  else
  match env.formFile with
  | Except.error _ =>
      ⟨Response.error 400 "Unable to parse form file", [], Except.ok videoDb, none, formSourceLen⟩
  | Except.ok file =>
  match env.parseMediaType file.contentType with
  | Except.error _ =>
      ⟨Response.error 400 "Invalid media type", [], Except.ok videoDb, none, formSourceLen⟩
  | Except.ok mediaType =>
  if mediaType ≠ "video/mp4" then
    ⟨Response.error 400 "Invalid media type", [], Except.ok videoDb, none, formSourceLen⟩
  else
  match env.createTemp with
  | Except.error _ =>
      ⟨Response.error 500 "Couldn\x27t create temp file", [], Except.ok videoDb, none, formSourceLen⟩
  | Except.ok tmpName =>
  match env.ioCopy with
  | Except.error _ =>
      ⟨Response.error 500 "Couldn\x27t save file", [Effect.createTemp],
       Except.ok videoDb, none, formSourceLen⟩
  | Except.ok _ =>
  -- tmpFile.Seek(0, io.SeekStart)
  match getVideoAspectRatio env.probe with
  | Except.error _ =>
      ⟨Response.error 500 "Couldn\x27t get video aspect ratio",
       [Effect.createTemp, Effect.runFfprobe tmpName], Except.ok videoDb, none, formSourceLen⟩
  | Except.ok aspectRation =>
  let prefixDir := classifyAspect aspectRation
  match processVideoForFastStart tmpName env.ffmpegRun with
  | (c, Except.error _) =>
      ⟨Response.error 500 "Couldn\x27t process video",
       [Effect.createTemp, Effect.runFfprobe tmpName, Effect.runFfmpeg c],
       Except.ok videoDb, none, formSourceLen⟩
  | (c, Except.ok _processedFileName) =>
  match env.openProcessed with
  | Except.error _ =>
      ⟨Response.error 500 "Couldn\x27t process video",
       [Effect.createTemp, Effect.runFfprobe tmpName, Effect.runFfmpeg c],
       Except.ok videoDb, none, formSourceLen⟩
  | Except.ok _ =>
  match env.randRead with
  | Except.error _ =>
      ⟨Response.error 500 "Couldn\x27t generate random bytes",
       [Effect.createTemp, Effect.runFfprobe tmpName, Effect.runFfmpeg c],
       Except.ok videoDb, none, formSourceLen⟩
  | Except.ok _ =>
  let randomBites := (List.range 32).map env.randStream
  let name := base64URLEncode randomBites
  let fileName := prefixDir ++ "/" ++ name ++ ".mp4"
  match env.s3PutResult with
  | Except.error _ =>
      ⟨Response.error 500 "Couldn\x27t upload file to S3",
       [Effect.createTemp, Effect.runFfprobe tmpName, Effect.runFfmpeg c],
       Except.ok videoDb, none, formSourceLen⟩
  | Except.ok _ =>
  let videoUrl := cfg.s3CfDistribution ++ "/" ++ fileName
  let videoDb2 := { videoDb with videoURL := some videoUrl }
  match env.updateVideo with
  | Except.error _ =>
      ⟨Response.error 500 "Couldn\x27t update video",
       [Effect.createTemp, Effect.runFfprobe tmpName, Effect.runFfmpeg c,
        Effect.s3Put cfg.s3Bucket fileName, Effect.dbUpdate videoDb2],
       Except.ok videoDb, some fileName, formSourceLen⟩
  | Except.ok _ =>
      ⟨Response.okVideo videoDb2,
       [Effect.createTemp, Effect.runFfprobe tmpName, Effect.runFfmpeg c,
        Effect.s3Put cfg.s3Bucket fileName, Effect.dbUpdate videoDb2],
       Except.ok videoDb2, some fileName, formSourceLen⟩

/-- Whether a list of effects touches the local assets storage. -/
def assetsTouched (effs : List Effect) : Bool :=
  effs.any fun e =>
    match e with
    | Effect.assetsCreate _ => true
    | Effect.assetsWrite _ _ => true
    | _ => false

/-- Whether a list of effects creates a temporary file. -/
def tempCreated (effs : List Effect) : Bool :=
  effs.any fun e =>
    match e with
    | Effect.createTemp => true
    | _ => false

/-- A concrete configuration used to instantiate theorems. -/
def cfgW : ApiConfig :=
  ⟨"8080", "./assets", "secret", "tubely-bucket", "https://cdn.example"⟩

/-- A concrete stored video record owned by `user-1`. -/
def videoW : Video := ⟨"vid-1", "user-1", none, none⟩

/-- A concrete first ffprobe stream reporting a 16:9 aspect ratio. -/
def streamW : FfprobeStream := ⟨1920, 1080, "16:9"⟩

/-- A thumbnail-request environment in which every external call succeeds. -/
def thumbEnvOk : ThumbEnv where
  videoIDParse := Except.ok "vid-1"
  bearerToken := Except.ok "tok"
  jwtUser := Except.ok "user-1"
  parseFormResult := Except.ok ()
  formFile := Except.ok ⟨"cat.png", "image/png"⟩
  readAll := Except.ok [1, 2, 3]
  getVideo := Except.ok videoW
  parseMediaType := fun ct => Except.ok ct
  randRead := Except.ok ()
  randStream := fun _ => 0
  osCreate := Except.ok ()
  ioCopy := Except.ok 3
  updateVideo := Except.ok ()

/-- A video-request environment in which every external call succeeds and
whose request body is one byte over 1 GiB. -/
def videoEnvOk : VideoEnv where
  bodyLen := 2 ^ 30 + 1
  videoIDParse := Except.ok "vid-1"
  bearerToken := Except.ok "tok"
  jwtUser := Except.ok "user-1"
  getVideo := Except.ok videoW
  formFile := Except.ok ⟨"movie.mp4", "video/mp4"⟩
  parseMediaType := fun ct => Except.ok ct
  createTemp := Except.ok "/tmp/video.mp4123"
  ioCopy := Except.ok 100
  probe := ProbeRun.parsed [streamW]
  ffmpegRun := fun _ => Except.ok ()
  openProcessed := Except.ok ()
  randRead := Except.ok ()
  randStream := fun _ => 0
  s3PutResult := Except.ok ()
  updateVideo := Except.ok ()

example : (handlerUploadThumbnail cfgW thumbEnvOk).response = Response.okEmpty := by decide
example :
    (handlerUploadThumbnail cfgW thumbEnvOk).storedName =
      some "AAAAAAAAAAAAAAAAAAAAAAAAAAAAAAAAAAAAAAAAAAA.png" := by decide
example :
    (handlerUploadVideo cfgW videoEnvOk).s3Key =
      some "landscape/AAAAAAAAAAAAAAAAAAAAAAAAAAAAAAAAAAAAAAAAAAA=.mp4" := by decide
/-- The record stored by the all-success video run on `videoEnvOk`. -/
def videoW2 : Video :=
  { videoW with videoURL := some "https://cdn.example/landscape/AAAAAAAAAAAAAAAAAAAAAAAAAAAAAAAAAAAAAAAAAAA=.mp4" }

example :
    (handlerUploadVideo cfgW videoEnvOk).response = Response.okVideo videoW2 := by decide

/-- The steps of `handlerUploadVideo` before the aspect-ratio probe all
succeed: the run reaches `getVideoAspectRatio`. -/
def ReachesProbe (env : VideoEnv) : Prop :=
  (∃ x, env.videoIDParse = Except.ok x) ∧
  (∃ x, env.bearerToken = Except.ok x) ∧
  (∃ u v, env.jwtUser = Except.ok u ∧ env.getVideo = Except.ok v ∧ v.userID = u) ∧
  (∃ f, env.formFile = Except.ok f ∧ env.parseMediaType f.contentType = Except.ok "video/mp4") ∧
  (∃ t, env.createTemp = Except.ok t) ∧
  (∃ n, env.ioCopy = Except.ok n)

/-- A video-request environment identical to `videoEnvOk` except that the
probe reports zero streams. -/
def videoEnvNoStreams : VideoEnv := { videoEnvOk with probe := ProbeRun.parsed [] }

/-- A first ffprobe stream whose `display_aspect_ratio` field is absent
from the JSON, hence unmarshalled to the empty string. -/
def streamEmptyDar : FfprobeStream := ⟨640, 480, ""⟩

/-- A video-request environment identical to `videoEnvOk` except that the
probe reports one stream with an empty aspect-ratio string. -/
def videoEnvEmptyDar : VideoEnv := { videoEnvOk with probe := ProbeRun.parsed [streamEmptyDar] }

example : base64RawURLEncode [0, 0, 0] = "AAAA" := by decide
example : base64RawURLEncode [255, 255] = "__8" := by decide
example : base64URLEncode [255, 255] = "__8=" := by decide
example : base64URLEncode [77] = "TQ==" := by decide
example : classifyAspect "16:9" = "landscape" := by decide
example : classifyAspect "" = "other" := by decide
example :
    getVideoAspectRatio (ProbeRun.parsed [⟨1920, 1080, "16:9"⟩]) = Except.ok "16:9" := rfl

/-- The thumbnail URL as built by the source (line 114): the host is the
hardcoded loopback name, only the port comes from the configuration. -/
def thumbnailURLOf (port fileName : String) : String :=
  "http://localhost:" ++ port ++ "/assets/" ++ fileName

/-- Worded from the spec sentence: a URL combining a configured host with
the configured port, of the form `http://<host>:<port>/assets/<file>`. -/
def thumbnailURLSpec (host port fileName : String) : String :=
  "http://" ++ host ++ ":" ++ port ++ "/assets/" ++ fileName

/-- Whether a list of effects contains a completed copy of data into an
assets file. -/
def assetsDataWritten (effs : List Effect) : Bool :=
  effs.any fun e =>
    match e with
    | Effect.assetsWrite _ _ => true
    | _ => false

/-- `thumbEnvOk` with a form file declaring a disallowed content type. -/
def thumbEnvBadType : ThumbEnv :=
  { thumbEnvOk with formFile := Except.ok ⟨"cat.txt", "text/html"⟩ }

/-- `videoEnvOk` with a form file declaring a disallowed content type. -/
def videoEnvBadType : VideoEnv :=
  { videoEnvOk with formFile := Except.ok ⟨"movie.avi", "video/avi"⟩ }

/-- `thumbEnvOk` with a JWT resolving to a user who does not own the video. -/
def thumbEnvNotOwner : ThumbEnv := { thumbEnvOk with jwtUser := Except.ok "user-2" }

/-- `videoEnvOk` with a JWT resolving to a user who does not own the video. -/
def videoEnvNotOwner : VideoEnv := { videoEnvOk with jwtUser := Except.ok "user-2" }

/-- `thumbEnvOk` with a failing multipart-form parse result and a failing
disk copy, the two errors the source discards. -/
def thumbEnvCopyFail : ThumbEnv :=
  { thumbEnvOk with
      parseFormResult := Except.error GoErr.exitErr
      ioCopy := Except.error GoErr.exitErr }

/-- The generated file name of a run on `thumbEnvOk` (32 zero bytes). -/
def thumbNameW : String := "AAAAAAAAAAAAAAAAAAAAAAAAAAAAAAAAAAAAAAAAAAA.png"

/-- The thumbnail URL stored by a run on `thumbEnvOk` with `cfgW`. -/
def thumbUrlW : String := "http://localhost:8080/assets/" ++ thumbNameW

/-- The record stored by a successful thumbnail run on `thumbEnvOk`. -/
def videoWThumb : Video := { videoW with thumbnailURL := some thumbUrlW }

/-- C8: for every input path, `processVideoForFastStart` writes its output
to the sibling path obtained by appending `".processing"` to the input
path (that path is the output argument of the ffmpeg invocation), returns
that new path exactly when the external tool exits zero, and returns an
error exactly when it exits non-zero. -/
theorem fastStartContract (filePath : String) (runExit : Cmd → Except GoErr Unit) :
    (processVideoForFastStart filePath runExit).1 =
      ffmpegFastStartCmd filePath (filePath ++ ".processing") ∧
    (ffmpegFastStartCmd filePath (filePath ++ ".processing")).args.getLastD "" =
      filePath ++ ".processing" ∧
    (runExit (ffmpegFastStartCmd filePath (filePath ++ ".processing")) = Except.ok () →
      (processVideoForFastStart filePath runExit).2 = Except.ok (filePath ++ ".processing")) ∧
    (∀ e, runExit (ffmpegFastStartCmd filePath (filePath ++ ".processing")) = Except.error e →
      (processVideoForFastStart filePath runExit).2 = Except.error e) ∧
    (∀ s, (processVideoForFastStart filePath runExit).2 = Except.ok s →
      s = filePath ++ ".processing" ∧
      runExit (ffmpegFastStartCmd filePath (filePath ++ ".processing")) = Except.ok ()) := by
  unfold processVideoForFastStart
  rcases hrun : runExit (ffmpegFastStartCmd filePath (filePath ++ ".processing")) with e | u
  · simp [hrun]
    rfl
  · simp [hrun]
    rfl

/-- Witness for C8: on a concrete path with a zero ffmpeg exit, the
sub-routine returns the `".processing"` sibling path. -/
theorem fastStartContractWitness :
    (processVideoForFastStart "/tmp/video.mp4" (fun _ => Except.ok ())).2 =
      Except.ok "/tmp/video.mp4.processing" :=
  (fastStartContract "/tmp/video.mp4" (fun _ => Except.ok ())).2.2.1 rfl

/-- C1: the aspect-ratio classification of the video upload handler maps
`"16:9"` to `landscape`, `"9:16"` to `portrait` and any other value to
`other`, and a probe result with zero streams makes `getVideoAspectRatio`
fail, so the handler answers an internal error instead of falling through
to a default storage folder. -/
theorem aspectClassificationCorrect (cfg : ApiConfig) (env : VideoEnv)
    (dar : String) (s : FfprobeStream) (rest : List FfprobeStream)
    (hreach : ReachesProbe env) (hzero : env.probe = ProbeRun.parsed []) :
    classifyAspect "16:9" = "landscape" ∧
    classifyAspect "9:16" = "portrait" ∧
    (dar ≠ "16:9" → dar ≠ "9:16" → classifyAspect dar = "other") ∧
    getVideoAspectRatio (ProbeRun.parsed (s :: rest)) = Except.ok s.display_aspect_ratio ∧
    getVideoAspectRatio (ProbeRun.parsed []) = Except.error (GoErr.msg "No streams found") ∧
    (handlerUploadVideo cfg env).response =
      Response.error 500 "Couldn\x27t get video aspect ratio" := by
  obtain ⟨⟨x1, h1⟩, ⟨x2, h2⟩, ⟨u, v, h3, h4, h5⟩, ⟨f, h6, h7⟩, ⟨t, h8⟩, ⟨n, h9⟩⟩ := hreach
  refine ⟨rfl, rfl, ?_, rfl, rfl, ?_⟩
  · intro hd1 hd2
    simp [classifyAspect, hd1, hd2]
  · simp [handlerUploadVideo, h1, h2, h3, h4, h5, h6, h7, h8, h9, hzero, getVideoAspectRatio]

/-- Witness for C1: on the all-success environment whose probe reports
zero streams, the handler fails with the internal aspect-ratio error, and
`"1:1"` classifies as `other`. -/
theorem aspectClassificationWitness :
    classifyAspect "1:1" = "other" ∧
    (handlerUploadVideo cfgW videoEnvNoStreams).response =
      Response.error 500 "Couldn\x27t get video aspect ratio" := by
  have h := aspectClassificationCorrect cfgW videoEnvNoStreams "1:1" streamW []
    ⟨⟨"vid-1", rfl⟩, ⟨"tok", rfl⟩, ⟨"user-1", videoW, rfl, rfl, rfl⟩,
     ⟨⟨"movie.mp4", "video/mp4"⟩, rfl, rfl⟩, ⟨"/tmp/video.mp4123", rfl⟩, ⟨100, rfl⟩⟩ rfl
  exact ⟨h.2.2.1 (by decide) (by decide), h.2.2.2.2.2⟩

/-- C10: a probe result with at least one stream whose
`display_aspect_ratio` is absent or empty makes `getVideoAspectRatio`
return the empty string without error; the handler then does not fail at
the probe step and, whenever it stores an object, stores it under the
`other/` folder. -/
theorem emptyAspectRatioProceedsOther (cfg : ApiConfig) (env : VideoEnv)
    (s : FfprobeStream) (rest : List FfprobeStream)
    (hdar : s.display_aspect_ratio = "")
    (hreach : ReachesProbe env) (hprobe : env.probe = ProbeRun.parsed (s :: rest)) :
    getVideoAspectRatio (ProbeRun.parsed (s :: rest)) = Except.ok "" ∧
    classifyAspect "" = "other" ∧
    (handlerUploadVideo cfg env).response ≠
      Response.error 500 "Couldn\x27t get video aspect ratio" ∧
    (∀ k, (handlerUploadVideo cfg env).s3Key = some k →
      k = "other/" ++ base64URLEncode ((List.range 32).map env.randStream) ++ ".mp4") := by
  obtain ⟨⟨x1, h1⟩, ⟨x2, h2⟩, ⟨u, v, h3, h4, h5⟩, ⟨f, h6, h7⟩, ⟨t, h8⟩, ⟨n, h9⟩⟩ := hreach
  refine ⟨by simp [getVideoAspectRatio, hdar], rfl, ?_, ?_⟩ <;>
  · simp only [handlerUploadVideo, h1, h2, h3, h4, h5, h6, h7, h8, h9, hprobe,
      getVideoAspectRatio, hdar]
    rcases hrun : env.ffmpegRun (ffmpegFastStartCmd t (t ++ ".processing")) with e | u1 <;>
      rcases hopen : env.openProcessed with e2 | u2 <;>
      rcases hrand : env.randRead with e3 | u3 <;>
      rcases hs3 : env.s3PutResult with e4 | u4 <;>
      rcases hupd : env.updateVideo with e5 | u5 <;>
      simp [processVideoForFastStart, hrun, hopen, hrand, hs3, hupd, classifyAspect]

/-- Witness for C10: on the all-success environment whose probe reports
one stream with an empty aspect-ratio string, the probe sub-routine
returns `""` without error and the handler does not fail at the probe
step. -/
theorem emptyAspectRatioWitness :
    getVideoAspectRatio (ProbeRun.parsed [streamEmptyDar]) = Except.ok "" ∧
    (handlerUploadVideo cfgW videoEnvEmptyDar).response ≠
      Response.error 500 "Couldn\x27t get video aspect ratio" := by
  have h := emptyAspectRatioProceedsOther cfgW videoEnvEmptyDar streamEmptyDar [] rfl
    ⟨⟨"vid-1", rfl⟩, ⟨"tok", rfl⟩, ⟨"user-1", videoW, rfl, rfl, rfl⟩,
     ⟨⟨"movie.mp4", "video/mp4"⟩, rfl, rfl⟩, ⟨"/tmp/video.mp4123", rfl⟩, ⟨100, rfl⟩⟩ rfl
  exact ⟨h.1, h.2.2.1⟩

/-- C2 (code bug): the source passes `r.Body` to `http.MaxBytesReader`
but discards the wrapped reader it returns, so the stream the multipart
parser later consumes is the original, uncapped body.  On a request body
of `2^30 + 1` bytes the whole body remains available after the cap line
and the pipeline still completes, while an applied cap would have left at
most `2^30` bytes. -/
theorem maxBytesCapDiscarded :
    (handlerUploadVideo cfgW videoEnvOk).formSourceLen = 2 ^ 30 + 1 ∧
    2 ^ 30 < (handlerUploadVideo cfgW videoEnvOk).formSourceLen ∧
    maxBytesReader (2 ^ 30 + 1) (2 ^ 30) = 2 ^ 30 ∧
    (handlerUploadVideo cfgW videoEnvOk).response = Response.okVideo videoW2 := by
  refine ⟨by decide, by decide, by decide, by decide⟩

/-- C4: a thumbnail request whose declared content type parses to neither
`image/jpeg` nor `image/png` (or does not parse at all) never touches the
assets storage, and — whenever the pipeline reaches the content-type
check — is answered with the 400 media-type error. -/
theorem thumbRejectsBadMediaType (cfg : ApiConfig) (env : ThumbEnv)
    (hbad : ∀ f m, env.formFile = Except.ok f →
      env.parseMediaType f.contentType = Except.ok m →
      m ≠ "image/jpeg" ∧ m ≠ "image/png") :
    assetsTouched (handlerUploadThumbnail cfg env).effects = false ∧
    (∀ i t u f d v, env.videoIDParse = Except.ok i → env.bearerToken = Except.ok t →
      env.jwtUser = Except.ok u → env.formFile = Except.ok f → env.readAll = Except.ok d →
      env.getVideo = Except.ok v → v.userID = u →
      (handlerUploadThumbnail cfg env).response = Response.error 400 "Invalid media type") := by
  constructor
  · unfold handlerUploadThumbnail
    repeat' split
    all_goals simp_all [assetsTouched]
  · intro i t u f d v h1 h2 h3 h4 h5 h6 h7
    rcases hpm : env.parseMediaType f.contentType with e | m
    · simp [handlerUploadThumbnail, h1, h2, h3, h4, h5, h6, h7, hpm]
    · obtain ⟨hm1, hm2⟩ := hbad f m h4 hpm
      simp [handlerUploadThumbnail, h1, h2, h3, h4, h5, h6, h7, hpm, hm1, hm2]

/-- Witness for C4: a `text/html` thumbnail part is rejected with 400 and
no assets-storage effect occurs. -/
theorem thumbRejectsBadMediaTypeWitness :
    assetsTouched (handlerUploadThumbnail cfgW thumbEnvBadType).effects = false ∧
    (handlerUploadThumbnail cfgW thumbEnvBadType).response =
      Response.error 400 "Invalid media type" := by
  have h := thumbRejectsBadMediaType cfgW thumbEnvBadType (by
    intro f m hf hm
    injection hf with hf1
    subst hf1
    injection hm with hm1
    subst hm1
    exact ⟨by decide, by decide⟩)
  exact ⟨h.1, h.2 "vid-1" "tok" "user-1" ⟨"cat.txt", "text/html"⟩ [1, 2, 3] videoW
    rfl rfl rfl rfl rfl rfl rfl⟩

/-- C5: a video request whose declared content type does not parse to
`video/mp4` never creates the handler temporary file, and — whenever the
pipeline reaches the content-type check — is answered with the 400
media-type error. -/
theorem videoRejectsBadMediaType (cfg : ApiConfig) (env : VideoEnv)
    (hbad : ∀ f m, env.formFile = Except.ok f →
      env.parseMediaType f.contentType = Except.ok m → m ≠ "video/mp4") :
    tempCreated (handlerUploadVideo cfg env).effects = false ∧
    (∀ i t u v f, env.videoIDParse = Except.ok i → env.bearerToken = Except.ok t →
      env.jwtUser = Except.ok u → env.getVideo = Except.ok v → v.userID = u →
      env.formFile = Except.ok f →
      (handlerUploadVideo cfg env).response = Response.error 400 "Invalid media type") := by
  constructor
  · unfold handlerUploadVideo
    repeat' split
    all_goals simp_all [tempCreated]
  · intro i t u v f h1 h2 h3 h4 h5 h6
    rcases hpm : env.parseMediaType f.contentType with e | m
    · simp [handlerUploadVideo, h1, h2, h3, h4, h5, h6, hpm]
    · have hm1 := hbad f m h6 hpm
      simp [handlerUploadVideo, h1, h2, h3, h4, h5, h6, hpm, hm1]

/-- Witness for C5: a `video/avi` part is rejected with 400 and no
temporary file is created. -/
theorem videoRejectsBadMediaTypeWitness :
    tempCreated (handlerUploadVideo cfgW videoEnvBadType).effects = false ∧
    (handlerUploadVideo cfgW videoEnvBadType).response =
      Response.error 400 "Invalid media type" := by
  have h := videoRejectsBadMediaType cfgW videoEnvBadType (by
    intro f m hf hm
    injection hf with hf1
    subst hf1
    injection hm with hm1
    subst hm1
    decide)
  exact ⟨h.1, h.2 "vid-1" "tok" "user-1" videoW ⟨"movie.avi", "video/avi"⟩
    rfl rfl rfl rfl rfl rfl⟩

/-- C7: on every error response of either handler the metadata record is
left as fetched (no partial commit), and a request by an authenticated
user who is not the owner — with the preceding steps succeeding — is
answered 401 with the record unchanged. -/
theorem errorPathsLeaveRecordUnchanged (cfg : ApiConfig) (et : ThumbEnv) (ev : VideoEnv) :
    (∀ s m, (handlerUploadThumbnail cfg et).response = Response.error s m →
      (handlerUploadThumbnail cfg et).finalRecord = et.getVideo) ∧
    (∀ s m, (handlerUploadVideo cfg ev).response = Response.error s m →
      (handlerUploadVideo cfg ev).finalRecord = ev.getVideo) ∧
    (∀ i t u f d v, et.videoIDParse = Except.ok i → et.bearerToken = Except.ok t →
      et.jwtUser = Except.ok u → et.formFile = Except.ok f → et.readAll = Except.ok d →
      et.getVideo = Except.ok v → v.userID ≠ u →
      (handlerUploadThumbnail cfg et).response = Response.error 401 "Not your video" ∧
      (handlerUploadThumbnail cfg et).finalRecord = et.getVideo) ∧
    (∀ i t u v, ev.videoIDParse = Except.ok i → ev.bearerToken = Except.ok t →
      ev.jwtUser = Except.ok u → ev.getVideo = Except.ok v → v.userID ≠ u →
      (handlerUploadVideo cfg ev).response = Response.error 401 "User does not own video" ∧
      (handlerUploadVideo cfg ev).finalRecord = ev.getVideo) := by
  refine ⟨?_, ?_, ?_, ?_⟩
  · intro s m
    unfold handlerUploadThumbnail
    repeat' split
    all_goals try simp_all
    all_goals (split <;> simp_all)
  · intro s m
    unfold handlerUploadVideo
    repeat' split
    all_goals simp_all
  · intro i t u f d v h1 h2 h3 h4 h5 h6 h7
    constructor <;> simp [handlerUploadThumbnail, h1, h2, h3, h4, h5, h6, h7]
  · intro i t u v h1 h2 h3 h4 h5
    constructor <;> simp [handlerUploadVideo, h1, h2, h3, h4, h5]

/-- Witness for C7: a non-owning authenticated user gets 401 from both
handlers. -/
theorem errorPathsWitness :
    (handlerUploadThumbnail cfgW thumbEnvNotOwner).response =
      Response.error 401 "Not your video" ∧
    (handlerUploadVideo cfgW videoEnvNotOwner).response =
      Response.error 401 "User does not own video" := by
  have ht := errorPathsLeaveRecordUnchanged cfgW thumbEnvNotOwner videoEnvNotOwner
  exact ⟨(ht.2.2.1 "vid-1" "tok" "user-2" ⟨"cat.png", "image/png"⟩ [1, 2, 3] videoW
      rfl rfl rfl rfl rfl rfl (by decide)).1,
    (ht.2.2.2 "vid-1" "tok" "user-2" videoW rfl rfl rfl rfl (by decide)).1⟩

/-- C9: on an environment where the multipart-form parse result and the
disk copy both fail — the two error values the source discards — the
thumbnail handler still answers 200, stores the thumbnail URL in the
record, and no completed assets write took place. -/
theorem thumbSuccessDespiteCopyFailure :
    thumbEnvCopyFail.ioCopy = Except.error GoErr.exitErr ∧
    thumbEnvCopyFail.parseFormResult = Except.error GoErr.exitErr ∧
    (handlerUploadThumbnail cfgW thumbEnvCopyFail).response = Response.okEmpty ∧
    assetsDataWritten (handlerUploadThumbnail cfgW thumbEnvCopyFail).effects = false ∧
    (handlerUploadThumbnail cfgW thumbEnvCopyFail).finalRecord = Except.ok videoWThumb := by
  exact ⟨rfl, rfl, by decide, by decide, by decide⟩

/-- Inversion of a successful thumbnail run: every pipeline step
succeeded, the requester owns the record, and the media type is one of
the two allowed image types. -/
theorem thumbOkInversion (cfg : ApiConfig) (env : ThumbEnv)
    (h200 : (handlerUploadThumbnail cfg env).response = Response.okEmpty) :
    ∃ i t u f d v m, env.videoIDParse = Except.ok i ∧ env.bearerToken = Except.ok t ∧
      env.jwtUser = Except.ok u ∧ env.formFile = Except.ok f ∧ env.readAll = Except.ok d ∧
      env.getVideo = Except.ok v ∧ v.userID = u ∧
      env.parseMediaType f.contentType = Except.ok m ∧
      (m = "image/jpeg" ∨ m = "image/png") ∧
      (∃ a, env.randRead = Except.ok a) ∧ (∃ a, env.osCreate = Except.ok a) ∧
      (∃ a, env.updateVideo = Except.ok a) := by
  unfold handlerUploadThumbnail at h200
  repeat' split at h200
  all_goals try simp_all
  all_goals try (split at h200 <;> simp_all)
  all_goals tauto

/-- C3 counterexample: on a concrete successful upload the stored URL is
the hardcoded-loopback form; it differs from the spec-worded
`http://<host>:<port>/assets/<file>` form for a configured non-loopback
host, so the URL is not built from a configured host. -/
theorem thumbnailUrlHostCex :
    (handlerUploadThumbnail cfgW thumbEnvOk).finalRecord = Except.ok videoWThumb ∧
    videoWThumb.thumbnailURL = some (thumbnailURLOf cfgW.port thumbNameW) ∧
    thumbnailURLOf cfgW.port thumbNameW ≠
      thumbnailURLSpec "cdn.example.com" cfgW.port thumbNameW := by
  exact ⟨by decide, by decide, by decide⟩

/-- C3 amended: on every successful thumbnail upload the stored URL
combines the hardcoded host `localhost` with the configured port and the
generated file name: `http://localhost:<port>/assets/<random>.<ext>`. -/
theorem thumbnailUrlFormat (cfg : ApiConfig) (env : ThumbEnv)
    (h200 : (handlerUploadThumbnail cfg env).response = Response.okEmpty) :
    ∃ n v, (handlerUploadThumbnail cfg env).storedName = some n ∧
      (handlerUploadThumbnail cfg env).finalRecord = Except.ok v ∧
      v.thumbnailURL = some (thumbnailURLSpec "localhost" cfg.port n) := by
  obtain ⟨i, t, u, f, d, v, m, h1, h2, h3, h4, h5, h6, h7, h8, h9, ⟨a1, hA⟩, ⟨a2, hB⟩, ⟨a3, hC⟩⟩ :=
    thumbOkInversion cfg env h200
  have hs1 : stringsSplit "image/jpeg" '/' = ["image", "jpeg"] := by decide
  have hs2 : stringsSplit "image/png" '/' = ["image", "png"] := by decide
  rcases h9 with hm | hm <;> subst hm <;>
    simp [handlerUploadThumbnail, h1, h2, h3, h4, h5, h6, h7, h8, hA, hB, hC, hs1, hs2] <;>
    try rfl

/-- Witness for C3 (amended): the successful concrete run stores a URL of
the `http://localhost:<port>/assets/<name>` form. -/
theorem thumbnailUrlFormatWitness :
    ∃ n v, (handlerUploadThumbnail cfgW thumbEnvOk).storedName = some n ∧
      (handlerUploadThumbnail cfgW thumbEnvOk).finalRecord = Except.ok v ∧
      v.thumbnailURL = some (thumbnailURLSpec "localhost" cfgW.port n) :=
  thumbnailUrlFormat cfgW thumbEnvOk (by decide)

/-- Inversion of a thumbnail run that generated a storage name: the media
type was validated as one of the two image types and the name is the
URL-safe raw encoding of the 32 fresh random bytes followed by the
extension split off the media type. -/
theorem thumbStoredNameInv (cfg : ApiConfig) (env : ThumbEnv) (n : String)
    (hn : (handlerUploadThumbnail cfg env).storedName = some n) :
    ∃ f m, env.formFile = Except.ok f ∧ env.parseMediaType f.contentType = Except.ok m ∧
      (m = "image/jpeg" ∨ m = "image/png") ∧
      n = base64RawURLEncode ((List.range 32).map env.randStream) ++ "." ++
        (stringsSplit m '/').getD 1 "" := by
  rcases h1 : env.videoIDParse with e | i
  · simp [handlerUploadThumbnail, h1] at hn
  rcases h2 : env.bearerToken with e | t
  · simp [handlerUploadThumbnail, h1, h2] at hn
  rcases h3 : env.jwtUser with e | u
  · simp [handlerUploadThumbnail, h1, h2, h3] at hn
  rcases h4 : env.formFile with e | f
  · simp [handlerUploadThumbnail, h1, h2, h3, h4] at hn
  rcases h5 : env.readAll with e | d
  · simp [handlerUploadThumbnail, h1, h2, h3, h4, h5] at hn
  rcases h6 : env.getVideo with e | v
  · simp [handlerUploadThumbnail, h1, h2, h3, h4, h5, h6] at hn
  by_cases ho : v.userID ≠ u
  · simp [handlerUploadThumbnail, h1, h2, h3, h4, h5, h6, ho] at hn
  rcases h8 : env.parseMediaType f.contentType with e | m
  · simp [handlerUploadThumbnail, h1, h2, h3, h4, h5, h6, ho, h8] at hn
  by_cases hmt : m ≠ "image/jpeg" ∧ m ≠ "image/png"
  · simp [handlerUploadThumbnail, h1, h2, h3, h4, h5, h6, ho, h8, hmt] at hn
  have hm : m = "image/jpeg" ∨ m = "image/png" := by tauto
  refine ⟨f, m, rfl, h8, hm, ?_⟩
  rcases hA : env.randRead with e | a1
  · simp [handlerUploadThumbnail, h1, h2, h3, h4, h5, h6, ho, h8, hmt, hA,
      apply_ite ThumbOutcome.storedName] at hn
  rcases hB : env.osCreate with e | a2
  · simp [handlerUploadThumbnail, h1, h2, h3, h4, h5, h6, ho, h8, hmt, hA, hB,
      apply_ite ThumbOutcome.storedName] at hn
  have hs1 : stringsSplit "image/jpeg" '/' = ["image", "jpeg"] := by decide
  have hs2 : stringsSplit "image/png" '/' = ["image", "png"] := by decide
  rcases hm with rfl | rfl <;>
    rcases hC : env.updateVideo with e | a3 <;>
    · simp [handlerUploadThumbnail, h1, h2, h3, h4, h5, h6, ho, h8, hmt, hA, hB, hC,
        hs1, hs2] at hn
      exact hn.symm

/-- Inversion of a video run that stored an object: the stored key is the
aspect-ratio folder, a slash, the URL-safe padded encoding of the 32
fresh random bytes and the fixed `.mp4` extension. -/
theorem videoS3KeyInv (cfg : ApiConfig) (env : VideoEnv) (k : String)
    (hk : (handlerUploadVideo cfg env).s3Key = some k) :
    ∃ ar, getVideoAspectRatio env.probe = Except.ok ar ∧
      k = classifyAspect ar ++ "/" ++
        base64URLEncode ((List.range 32).map env.randStream) ++ ".mp4" := by
  rcases h1 : env.videoIDParse with e | i
  · simp [handlerUploadVideo, h1] at hk
  rcases h2 : env.bearerToken with e | t
  · simp [handlerUploadVideo, h1, h2] at hk
  rcases h3 : env.jwtUser with e | u
  · simp [handlerUploadVideo, h1, h2, h3] at hk
  rcases h4 : env.getVideo with e | v
  · simp [handlerUploadVideo, h1, h2, h3, h4] at hk
  by_cases ho : v.userID ≠ u
  · simp [handlerUploadVideo, h1, h2, h3, h4, ho] at hk
  rcases h5 : env.formFile with e | f
  · simp [handlerUploadVideo, h1, h2, h3, h4, ho, h5] at hk
  rcases h6 : env.parseMediaType f.contentType with e | m
  · simp [handlerUploadVideo, h1, h2, h3, h4, ho, h5, h6] at hk
  by_cases hmt : m ≠ "video/mp4"
  · simp [handlerUploadVideo, h1, h2, h3, h4, ho, h5, h6, hmt] at hk
  rcases h7 : env.createTemp with e | tmp
  · simp [handlerUploadVideo, h1, h2, h3, h4, ho, h5, h6, hmt, h7] at hk
  rcases h8 : env.ioCopy with e | nc
  · simp [handlerUploadVideo, h1, h2, h3, h4, ho, h5, h6, hmt, h7, h8] at hk
  rcases h9 : getVideoAspectRatio env.probe with e | ar
  · simp [handlerUploadVideo, h1, h2, h3, h4, ho, h5, h6, hmt, h7, h8, h9] at hk
  refine ⟨ar, rfl, ?_⟩
  rcases hF : env.ffmpegRun (ffmpegFastStartCmd tmp (tmp ++ ".processing")) with e | a0
  · simp [handlerUploadVideo, h1, h2, h3, h4, ho, h5, h6, hmt, h7, h8, h9,
      processVideoForFastStart, hF] at hk
  rcases hOp : env.openProcessed with e | a1
  · simp [handlerUploadVideo, h1, h2, h3, h4, ho, h5, h6, hmt, h7, h8, h9,
      processVideoForFastStart, hF, hOp] at hk
  rcases hA : env.randRead with e | a2
  · simp [handlerUploadVideo, h1, h2, h3, h4, ho, h5, h6, hmt, h7, h8, h9,
      processVideoForFastStart, hF, hOp, hA] at hk
  rcases hS : env.s3PutResult with e | a3
  · simp [handlerUploadVideo, h1, h2, h3, h4, ho, h5, h6, hmt, h7, h8, h9,
      processVideoForFastStart, hF, hOp, hA, hS] at hk
  rcases hC : env.updateVideo with e | a4 <;>
  · simp [handlerUploadVideo, h1, h2, h3, h4, ho, h5, h6, hmt, h7, h8, h9,
      processVideoForFastStart, hF, hOp, hA, hS, hC] at hk
    exact hk.symm

/-- C6: in both handlers, every generated storage name is the URL-safe
base64 encoding of the 32 fresh random bytes supplied by `crypto/rand`
followed by an extension derived from the validated content type
(`jpeg`/`png` split off the media type for thumbnails, the fixed `.mp4`
for videos), and the name is unchanged when only the user-supplied file
name of the upload differs. -/
theorem generatedNameSpec (cfg : ApiConfig) (et : ThumbEnv) (ev : VideoEnv)
    (a b : String) (f : FormFile) :
    (∀ n, (handlerUploadThumbnail cfg et).storedName = some n →
      ∃ ext, (ext = "jpeg" ∨ ext = "png") ∧
        n = base64RawURLEncode ((List.range 32).map et.randStream) ++ "." ++ ext ∧
        ((List.range 32).map et.randStream).length = 32) ∧
    (∀ k, (handlerUploadVideo cfg ev).s3Key = some k →
      ∃ p, k = p ++ "/" ++ base64URLEncode ((List.range 32).map ev.randStream) ++ ".mp4" ∧
        ((List.range 32).map ev.randStream).length = 32) ∧
    (handlerUploadThumbnail cfg
        { et with formFile := Except.ok { f with filename := a } }).storedName =
      (handlerUploadThumbnail cfg
        { et with formFile := Except.ok { f with filename := b } }).storedName ∧
    (handlerUploadVideo cfg
        { ev with formFile := Except.ok { f with filename := a } }).s3Key =
      (handlerUploadVideo cfg
        { ev with formFile := Except.ok { f with filename := b } }).s3Key := by
  refine ⟨?_, ?_, ?_, ?_⟩
  · intro n hn
    obtain ⟨f0, m, hf, hm, hmm, hval⟩ := thumbStoredNameInv cfg et n hn
    rcases hmm with rfl | rfl
    · exact ⟨"jpeg", Or.inl rfl, by simpa [stringsSplit] using hval, by simp⟩
    · exact ⟨"png", Or.inr rfl, by simpa [stringsSplit] using hval, by simp⟩
  · intro k hk
    obtain ⟨ar, har, hval⟩ := videoS3KeyInv cfg ev k hk
    exact ⟨classifyAspect ar, hval, by simp⟩
  · rfl
  · rfl

/-- Witness for C6: on the concrete successful runs, the generated
thumbnail name is the encoding of the 32 zero bytes with a `png`
extension, and swapping the user-supplied file name leaves the name
unchanged. -/
theorem generatedNameSpecWitness :
    (∃ ext, (ext = "jpeg" ∨ ext = "png") ∧
      "AAAAAAAAAAAAAAAAAAAAAAAAAAAAAAAAAAAAAAAAAAA.png" =
        base64RawURLEncode ((List.range 32).map thumbEnvOk.randStream) ++ "." ++ ext ∧
      ((List.range 32).map thumbEnvOk.randStream).length = 32) ∧
    (handlerUploadThumbnail cfgW
        { thumbEnvOk with formFile := Except.ok ⟨"x.png", "image/png"⟩ }).storedName =
      (handlerUploadThumbnail cfgW
        { thumbEnvOk with formFile := Except.ok ⟨"y.png", "image/png"⟩ }).storedName := by
  have h := generatedNameSpec cfgW thumbEnvOk videoEnvOk "x.png" "y.png" ⟨"cat.png", "image/png"⟩
  exact ⟨h.1 "AAAAAAAAAAAAAAAAAAAAAAAAAAAAAAAAAAAAAAAAAAA.png" (by decide), h.2.2.1⟩

end S3Starter
